import Mathlib

/-!
Verification model of the flight-safety coordination layer of the
ai-drone-surveillance repository.

The geometry layer (src/geofence/geofence_manager.py) works over shapely
points and polygons in degree coordinates; it is embedded here over exact
rationals.  A circular boundary is built in the source as
`Point(center).buffer(radius_degrees)`, i.e. a disc of the given radius;
it is modelled as the exact disc (the polygonal approximation shapely uses
for a buffer is a floating-point-level detail).  Shapely `contains` is
strict interior containment: a point exactly on the boundary of a geometry
is not contained.  Polygon boundaries with a configured positive `buffer`
(which the source applies once at construction via `polygon.buffer`) are
outside this model, as the buffered geometry is no longer a polygon; none
of the analysed behaviour depends on them.

Quantities produced by the source that are irrational in general (nearest
points on circles, distances to boundaries) are modelled relationally:
`GetNearestSafePoint` and `CalculateBreachDistance` are predicates relating
inputs to the outputs the corresponding Python functions compute, with
distances ranging over the reals.
-/

namespace DroneSurveillance

/-- A 2D point in degree coordinates; `x` is longitude, `y` is latitude,
matching the `Point(longitude, latitude)` order used by the source. -/
structure Pt where
  x : ℚ
  y : ℚ
deriving DecidableEq

/-- Squared Euclidean distance between two points. -/
def distSq (p q : Pt) : ℚ :=
  (p.x - q.x) ^ 2 + (p.y - q.y) ^ 2

/-- Vector difference of two points. -/
def psub (p q : Pt) : Pt :=
  ⟨p.x - q.x, p.y - q.y⟩

/-- Dot product of two vectors. -/
def dotv (u v : Pt) : ℚ :=
  u.x * v.x + u.y * v.y

/-- 2D cross product of two vectors. -/
def crossv (u v : Pt) : ℚ :=
  u.x * v.y - u.y * v.x

/-- The point reached by travelling the fraction `t` of the way from `q`
towards `c`; this is `LineString([q, c]).interpolate` expressed with the
fraction of the segment length already divided out. -/
def interpolateToward (q c : Pt) (t : ℚ) : Pt :=
  ⟨q.x + t * (c.x - q.x), q.y + t * (c.y - q.y)⟩

/-- Whether `p` lies on the closed segment from `a` to `b`: collinear with
the segment and inside its bounding box. -/
def onSegment (p a b : Pt) : Bool :=
  decide (crossv (psub b a) (psub p a) = 0) &&
  decide (min a.x b.x ≤ p.x) && decide (p.x ≤ max a.x b.x) &&
  decide (min a.y b.y ≤ p.y) && decide (p.y ≤ max a.y b.y)

/-- Squared distance from `p` to the closed segment from `a` to `b`
(clamped foot of the perpendicular); rational and exactly computable. -/
def segDistSq (p a b : Pt) : ℚ :=
  let d := psub b a
  let den := dotv d d
  let num := dotv (psub p a) d
  if den = 0 then distSq p a
  else if num ≤ 0 then distSq p a
  else if den ≤ num then distSq p b
  else distSq p ⟨a.x + (num / den) * d.x, a.y + (num / den) * d.y⟩

/-- The edges of a closed ring (the source stores polygon rings closed,
first vertex repeated last, enforced in `_add_boundary`). -/
def ringEdges (ring : List Pt) : List (Pt × Pt) :=
  ring.zip ring.tail

/-- Whether `p` lies on the boundary ring of a polygon. -/
def onRing (ring : List Pt) (p : Pt) : Bool :=
  (ringEdges ring).any fun e => onSegment p e.1 e.2

/-- Even-odd ray-casting parity: counts crossings of the horizontal ray
from `p` with the ring edges.  For a point not on the ring this is `true`
exactly when the point is in the interior of the (simple) polygon. -/
def crossingsOdd (ring : List Pt) (p : Pt) : Bool :=
  (ringEdges ring).foldl
    (fun acc e =>
      let a := e.1
      let b := e.2
      if (decide (p.y < a.y) != decide (p.y < b.y)) &&
         decide (p.x < a.x + (b.x - a.x) * (p.y - a.y) / (b.y - a.y)) then
        !acc
      else acc)
    false

/-- Strict interior membership in a simple polygon, the semantics of
shapely `Polygon.contains(Point)`: interior parity without the ring. -/
def polyContainsPt (ring : List Pt) (p : Pt) : Bool :=
  crossingsOdd ring p && !onRing ring p

/-- Minimum squared distance from `p` to the edges of a ring. -/
def minEdgeDistSq (ring : List Pt) (p : Pt) : ℚ :=
  match ringEdges ring with
  | [] => 0
  | e :: es => es.foldl (fun m e0 => min m (segDistSq p e0.1 e0.2)) (segDistSq p e.1 e.2)

/-- `GeofenceManager._meters_to_degrees`: flat conversion `meters / 111111.0`
(the latitude argument of the source function does not affect the result). -/
def metersToDegrees (meters : ℚ) : ℚ :=
  meters / 111111

/-- A geofence boundary as stored in `GeofenceManager.boundaries`: a circle
keeps its center (latitude, longitude) and radius in meters alongside the
disc geometry of radius `radius / 111111` degrees built by
`_create_circular_boundary`; a polygon keeps its closed ring. -/
inductive Boundary where
  | circle (centerLat centerLon radiusM : ℚ)
  | polygon (ring : List Pt)
deriving DecidableEq

/-- Shapely `boundary['geometry'].contains(point)`: strict interior
membership in the geometry of a boundary. -/
def Boundary.containsPt : Boundary → Pt → Bool
  | .circle cLat cLon rM, p => decide (distSq p ⟨cLon, cLat⟩ < metersToDegrees rM ^ 2)
  | .polygon ring, p => polyContainsPt ring p

/-- Membership in the closure of the geometry of a boundary (interior or
exactly on the bounding curve). -/
def Boundary.closedContains : Boundary → Pt → Prop
  | .circle cLat cLon rM, p => distSq p ⟨cLon, cLat⟩ ≤ metersToDegrees rM ^ 2
  | .polygon ring, p => crossingsOdd ring p = true ∨ onRing ring p = true

/-- The `GeofenceManager` state: its boundary list and the configuration
fields read by the analysed methods (defaults 30 / 2 / 5 in `__init__`). -/
structure Geofence where
  boundaries : List Boundary
  maxAltitude : ℚ
  minAltitude : ℚ
  bufferDistance : ℚ
deriving DecidableEq

/-- `GeofenceManager.is_point_inside(latitude, longitude, altitude=None)`:
fails on an out-of-range altitude when one is given, then reports whether
the 2D point is strictly inside at least one boundary geometry. -/
def is_point_inside (g : Geofence) (latitude longitude : ℚ)
    (altitude : Option ℚ) : Bool :=
  match altitude with
  | some alt =>
    if g.maxAltitude < alt || alt < g.minAltitude then false
    else g.boundaries.any fun b => b.containsPt ⟨longitude, latitude⟩
  | none => g.boundaries.any fun b => b.containsPt ⟨longitude, latitude⟩

/-- Distance from point `p` to the geometry of a boundary, as the source
computes it with `point.distance(nearest_points(point, geometry)[1])`: for a
circle at squared distance `s` from the center this is `sqrt s - r`, here
characterized as the nonnegative `d` with `(d + r) ^ 2 = s`; for a polygon it
is the square root of the minimum squared edge distance.  Distances range
over the reals since they are irrational in general. -/
def DistToBoundary : Boundary → Pt → ℝ → Prop
  | .circle cLat cLon rM, p, d =>
    0 ≤ d ∧ (d + ((metersToDegrees rM : ℚ) : ℝ)) ^ 2 = ((distSq p ⟨cLon, cLat⟩ : ℚ) : ℝ)
  | .polygon ring, p, d =>
    0 ≤ d ∧ d ^ 2 = ((minEdgeDistSq ring p : ℚ) : ℝ)

/-- `nearest_points(point, geometry)[1]` together with the distance to it:
for a circle, `q` is the point of the circle on the ray from the center
through `p`; for a polygon, `q` is a ring point realizing the minimum edge
distance.  Only executions whose nearest point has rational coordinates are
represented, which covers every configuration analysed below. -/
def NearestOnBoundary : Boundary → Pt → Pt → ℝ → Prop
  | .circle cLat cLon rM, p, q, d =>
    distSq q ⟨cLon, cLat⟩ = metersToDegrees rM ^ 2 ∧
    crossv (psub q ⟨cLon, cLat⟩) (psub p ⟨cLon, cLat⟩) = 0 ∧
    0 ≤ dotv (psub q ⟨cLon, cLat⟩) (psub p ⟨cLon, cLat⟩) ∧
    0 ≤ d ∧ (d + ((metersToDegrees rM : ℚ) : ℝ)) ^ 2 = ((distSq p ⟨cLon, cLat⟩ : ℚ) : ℝ)
  | .polygon ring, p, q, d =>
    onRing ring q = true ∧
    distSq p q = minEdgeDistSq ring p ∧
    0 ≤ d ∧ d ^ 2 = ((minEdgeDistSq ring p : ℚ) : ℝ)

/-- How `get_nearest_safe_point` turns the nearest boundary point `q` of the
winning boundary into the returned `(latitude, longitude)` pair: for a circle
it builds the line from `q` to the center — whose length is the circle
radius, as `q` lies on the circle — and, when that length exceeds
`buffer_distance` in degrees, interpolates `buffer_degrees` along it; for a
polygon (or when the interpolation condition fails) it returns `q` itself. -/
def resultFromWinner (g : Geofence) (b : Boundary) (q : Pt) : ℚ × ℚ :=
  match b with
  | .circle cLat cLon rM =>
    let r := metersToDegrees rM
    let buf := metersToDegrees g.bufferDistance
    if buf < r then
      let s := interpolateToward q ⟨cLon, cLat⟩ (buf / r)
      (s.y, s.x)
    else (q.y, q.x)
  | .polygon _ => (q.y, q.x)

/-- `GeofenceManager.get_nearest_safe_point(latitude, longitude)` as a
relation between the input coordinates and the returned pair.  The three
cases mirror the three returns of the source: the point is already inside
some boundary; a winning boundary is found — the first boundary attaining
the minimum distance, since the running minimum is only replaced on a
strict decrease — and its nearest point is post-processed by
`resultFromWinner`; or there are no boundaries at all and the input is
returned as a fallback. -/
inductive GetNearestSafePoint (g : Geofence) (lat lon : ℚ) : ℚ × ℚ → Prop where
  | inside :
      (g.boundaries.any fun b => b.containsPt ⟨lon, lat⟩) = true →
      GetNearestSafePoint g lat lon (lat, lon)
  | corrected (i : ℕ) (hi : i < g.boundaries.length) (q : Pt) (d : ℝ) :
      (g.boundaries.any fun b => b.containsPt ⟨lon, lat⟩) = false →
      NearestOnBoundary (g.boundaries.get ⟨i, hi⟩) ⟨lon, lat⟩ q d →
      (∀ (j : ℕ) (hj : j < g.boundaries.length) (e : ℝ), j < i →
        DistToBoundary (g.boundaries.get ⟨j, hj⟩) ⟨lon, lat⟩ e → d < e) →
      (∀ (j : ℕ) (hj : j < g.boundaries.length) (e : ℝ),
        DistToBoundary (g.boundaries.get ⟨j, hj⟩) ⟨lon, lat⟩ e → d ≤ e) →
      GetNearestSafePoint g lat lon (resultFromWinner g (g.boundaries.get ⟨i, hi⟩) q)
  | noBoundaries :
      g.boundaries = [] →
      GetNearestSafePoint g lat lon (lat, lon)

/-- `GeofenceManager.calculate_breach_distance(latitude, longitude)` as a
relation between the input coordinates and the returned number of meters:
`0` when the point is strictly inside some boundary, otherwise the minimum
over all boundaries of the degree distance to the boundary, multiplied by
`111111.0`.  (With an empty boundary list the source returns the float
infinity, which has no counterpart here; that configuration is not related
to any value.) -/
inductive CalculateBreachDistance (g : Geofence) (lat lon : ℚ) : ℝ → Prop where
  | inside :
      (g.boundaries.any fun b => b.containsPt ⟨lon, lat⟩) = true →
      CalculateBreachDistance g lat lon 0
  | outside (i : ℕ) (hi : i < g.boundaries.length) (dmin : ℝ) :
      (g.boundaries.any fun b => b.containsPt ⟨lon, lat⟩) = false →
      DistToBoundary (g.boundaries.get ⟨i, hi⟩) ⟨lon, lat⟩ dmin →
      (∀ (j : ℕ) (hj : j < g.boundaries.length) (e : ℝ),
        DistToBoundary (g.boundaries.get ⟨j, hj⟩) ⟨lon, lat⟩ e → dmin ≤ e) →
      CalculateBreachDistance g lat lon (dmin * 111111)

/-!
Specification-side description of `get_nearest_safe_point`, used to settle
the refinement claim C7.  It is written from the words of the claim: when
the input is reported inside (ignoring altitude) it is returned unchanged;
otherwise the boundary at the least distance wins, ties broken by the first
boundary in insertion order, and the nearest boundary point is nudged toward
a circle center by the buffer distance.  The `strictNudge` flag selects the
reading of "unless that nudge would overshoot the center": with
`strictNudge = false` (the claim as stated) the nudge is performed whenever
the buffer does not exceed the radius, i.e. whenever it does not travel past
the center; with `strictNudge = true` (the amended claim) the nudge is
performed only when the buffer is strictly smaller than the radius, so a
nudge that would land exactly on the center is also skipped.
-/

/-- The set of real distances from `p` to the geometries of the configured
boundaries. -/
def boundaryDistSet (g : Geofence) (p : Pt) : Set ℝ :=
  {d : ℝ | ∃ b, b ∈ g.boundaries ∧ DistToBoundary b p d}

/-- Post-processing of the winning nearest boundary point according to the
claim text, parameterized by the reading of the overshoot condition. -/
def claimCorrectedPoint (strictNudge : Bool) (g : Geofence) (b : Boundary) (q : Pt) :
    ℚ × ℚ :=
  match b with
  | .circle cLat cLon rM =>
    let r := metersToDegrees rM
    let buf := metersToDegrees g.bufferDistance
    match strictNudge with
    | true =>
      if buf < r then
        let s := interpolateToward q ⟨cLon, cLat⟩ (buf / r)
        (s.y, s.x)
      else (q.y, q.x)
    | false =>
      if buf ≤ r then
        let s := interpolateToward q ⟨cLon, cLat⟩ (buf / r)
        (s.y, s.x)
      else (q.y, q.x)
  | .polygon _ => (q.y, q.x)

/-- The behaviour of `nearest_safe_point` as described by claim C7 (with the
overshoot reading selected by `strictNudge`): return the input when it is
reported inside; otherwise select the boundary whose geometry attains the
least distance to the input — the first such boundary in insertion order —
and post-process its nearest point with `claimCorrectedPoint`. -/
inductive NearestSafePointClaim (strictNudge : Bool) (g : Geofence) (lat lon : ℚ) :
    ℚ × ℚ → Prop where
  | insideCase :
      is_point_inside g lat lon none = true →
      NearestSafePointClaim strictNudge g lat lon (lat, lon)
  | correctedCase (i : ℕ) (hi : i < g.boundaries.length) (q : Pt) (d : ℝ) :
      is_point_inside g lat lon none = false →
      IsLeast (boundaryDistSet g ⟨lon, lat⟩) d →
      NearestOnBoundary (g.boundaries.get ⟨i, hi⟩) ⟨lon, lat⟩ q d →
      (∀ (j : ℕ) (hj : j < g.boundaries.length) (e : ℝ), j < i →
        DistToBoundary (g.boundaries.get ⟨j, hj⟩) ⟨lon, lat⟩ e → d < e) →
      NearestSafePointClaim strictNudge g lat lon
        (claimCorrectedPoint strictNudge g (g.boundaries.get ⟨i, hi⟩) q)

/-!
Model of `DroneController` (src/drone_control/drone_controller.py): the
status enum, the vehicle handle fields the analysed methods read, the
commands they send over the flight link, `return_to_home`,
`move_to_coordinates`, and one iteration of the `_monitor_drone` loop.  The
`time.sleep` calls and the simulated landing timers are outside the model;
link exceptions around `simple_goto` / `VehicleMode` assignment are not
modelled (the success path is).
-/

/-- The `DroneStatus` enum. -/
inductive DroneStatus where
  | DISCONNECTED | CONNECTED | ARMED | FLYING | RETURNING | LANDING | ERROR
deriving DecidableEq

/-- Vehicle flight modes as the monitor reads them from
`self.vehicle.mode.name` (string comparison in the source). -/
inductive VMode where
  | guided | land | rtl | auto | other
deriving DecidableEq

/-- The fields of the dronekit vehicle handle read by the modelled code. -/
structure Vehicle where
  alt : ℚ
deriving DecidableEq

/-- A mutation sent to the vehicle over the flight link.  `correctiveMoveTo`
stands for the `move_to_coordinates` call the monitor issues on a geofence
breach; it records the breached position whose correction is specified by
`GetNearestSafePoint`. -/
inductive VehCmd where
  | setMode (m : VMode)
  | simpleGoto (lat lon alt : ℚ)
  | setAirspeed (v : ℚ)
  | correctiveMoveTo (lat lon : ℚ)
deriving DecidableEq

/-- The `DroneController` state: the fields read or written by
`return_to_home`, `move_to_coordinates` and `_monitor_drone`. -/
structure Ctrl where
  simulationMode : Bool
  status : DroneStatus
  vehicle : Option Vehicle
  geofenceManager : Option Geofence
  maxAltitude : ℚ
  returnAirspeed : ℚ
  criticalBatteryLevel : ℚ
  lowBatteryLevel : ℚ
  currentMission : Option ℕ
  currentWaypointIndex : ℕ
deriving DecidableEq

/-- `DroneController.return_to_home()`: in simulation mode it marks the
controller Returning and reports success without touching a vehicle; with no
vehicle, or when the drone is not flying, it refuses with no state change;
otherwise it sets the return airspeed, commands RTL mode and marks the
controller Returning. -/
def return_to_home (c : Ctrl) : Ctrl × Bool × List VehCmd :=
  if c.simulationMode then ({ c with status := .RETURNING }, true, [])
  else
    match c.vehicle with
    | none => (c, false, [])
    | some _ =>
      if c.status ≠ DroneStatus.FLYING then (c, false, [])
      else
        ({ c with status := .RETURNING }, true,
          [.setAirspeed c.returnAirspeed, .setMode .rtl])

/-- The `location` dict passed to `move_to_coordinates`, read with `.get`
so either coordinate may be absent. -/
structure Loc where
  latitude : Option ℚ
  longitude : Option ℚ
deriving DecidableEq

/-- The observable outcome of a `move_to_coordinates` call: the returned
boolean, the controller afterwards, and the target forwarded via
`simple_goto`, if any. -/
structure MoveOut where
  ok : Bool
  ctrl : Ctrl
  sent : Option (ℚ × ℚ × ℚ)
deriving DecidableEq

/-- The altitude actually commanded: the current vehicle altitude when none
is requested, otherwise the request clamped to `max_altitude`. -/
def resolveAlt (c : Ctrl) (v : Vehicle) : Option ℚ → ℚ
  | none => v.alt
  | some a => if c.maxAltitude < a then c.maxAltitude else a

/-- `DroneController.move_to_coordinates(location, altitude=None)` as a
relation, one constructor per return path of the source: the simulation
shortcut; the three rejections (no vehicle, not flying, missing
coordinates); and the forwarding paths, on which a configured geofence
manager silently substitutes `get_nearest_safe_point` for an
out-of-geofence target before `simple_goto`. -/
inductive MoveToCoordinates (c : Ctrl) (loc : Loc) (altitude : Option ℚ) :
    MoveOut → Prop where
  | sim :
      c.simulationMode = true →
      MoveToCoordinates c loc altitude ⟨true, c, none⟩
  | noVehicle :
      c.simulationMode = false → c.vehicle = none →
      MoveToCoordinates c loc altitude ⟨false, c, none⟩
  | notFlying (v : Vehicle) :
      c.simulationMode = false → c.vehicle = some v →
      c.status ≠ DroneStatus.FLYING →
      MoveToCoordinates c loc altitude ⟨false, c, none⟩
  | invalidCoords (v : Vehicle) :
      c.simulationMode = false → c.vehicle = some v →
      c.status = DroneStatus.FLYING →
      (loc.latitude = none ∨ loc.longitude = none) →
      MoveToCoordinates c loc altitude ⟨false, c, none⟩
  | noGeofence (v : Vehicle) (la lo : ℚ) :
      c.simulationMode = false → c.vehicle = some v →
      c.status = DroneStatus.FLYING →
      loc.latitude = some la → loc.longitude = some lo →
      c.geofenceManager = none →
      MoveToCoordinates c loc altitude ⟨true, c, some (la, lo, resolveAlt c v altitude)⟩
  | inBounds (v : Vehicle) (g : Geofence) (la lo : ℚ) :
      c.simulationMode = false → c.vehicle = some v →
      c.status = DroneStatus.FLYING →
      loc.latitude = some la → loc.longitude = some lo →
      c.geofenceManager = some g →
      is_point_inside g la lo none = true →
      MoveToCoordinates c loc altitude ⟨true, c, some (la, lo, resolveAlt c v altitude)⟩
  | outOfBounds (v : Vehicle) (g : Geofence) (la lo sla slo : ℚ) :
      c.simulationMode = false → c.vehicle = some v →
      c.status = DroneStatus.FLYING →
      loc.latitude = some la → loc.longitude = some lo →
      c.geofenceManager = some g →
      is_point_inside g la lo none = false →
      GetNearestSafePoint g la lo (sla, slo) →
      MoveToCoordinates c loc altitude ⟨true, c, some (sla, slo, resolveAlt c v altitude)⟩

/-- One telemetry snapshot read at the top of a `_monitor_drone` iteration. -/
structure Telemetry where
  mode : VMode
  armed : Bool
  batteryLevel : Option ℚ
  lat : ℚ
  lon : ℚ
  nextWaypoint : ℕ
deriving DecidableEq

/-- Monitor step 1: reconcile the status with an externally observed LAND
or RTL mode. -/
def syncMode (c : Ctrl) (t : Telemetry) : Ctrl :=
  if t.mode = VMode.land ∧ c.status ≠ DroneStatus.LANDING then
    { c with status := .LANDING }
  else if t.mode = VMode.rtl ∧ c.status ≠ DroneStatus.RETURNING then
    { c with status := .RETURNING }
  else c

/-- Monitor step 2: a landing drone that is observed disarmed has landed. -/
def checkLanded (c : Ctrl) (t : Telemetry) : Ctrl :=
  if c.status = DroneStatus.LANDING ∧ t.armed = false then
    { c with status := .CONNECTED }
  else c

/-- Monitor step 3: track mission progress while in AUTO mode. -/
def syncMission (c : Ctrl) (t : Telemetry) : Ctrl :=
  if t.mode = VMode.auto ∧ c.currentMission.isSome ∧
      t.nextWaypoint ≠ c.currentWaypointIndex then
    { c with currentWaypointIndex := t.nextWaypoint }
  else c

/-- Monitor step 4: battery policy — below the critical level call
`return_to_home` (its returned boolean is discarded by the monitor); below
only the low level, merely warn. -/
def batteryCheck (c : Ctrl) (t : Telemetry) : Ctrl × List VehCmd :=
  match t.batteryLevel with
  | some lvl =>
    if lvl < c.criticalBatteryLevel then
      let r := return_to_home c
      (r.1, r.2.2)
    else (c, [])
  | none => (c, [])

/-- Monitor step 5: geofence policy — only while Flying, a position outside
the geofence triggers a corrective `move_to_coordinates` toward
`get_nearest_safe_point` of the breached position. -/
def geofenceCheck (c : Ctrl) (t : Telemetry) : List VehCmd :=
  match c.geofenceManager with
  | some g =>
    if c.status = DroneStatus.FLYING ∧ is_point_inside g t.lat t.lon none = false then
      [.correctiveMoveTo t.lat t.lon]
    else []
  | none => []

/-- One iteration of the `_monitor_drone` loop body over a telemetry
snapshot, in source order: mode reconciliation, landing detection, mission
progress, battery policy, geofence policy. -/
def monitorTick (c : Ctrl) (t : Telemetry) : Ctrl × List VehCmd :=
  let c1 := syncMode c t
  let c2 := checkLanded c1 t
  let c3 := syncMission c2 t
  let r := batteryCheck c3 t
  (r.1, r.2 ++ geofenceCheck r.1 t)

/-- Consecutive monitor iterations over a telemetry trace, collecting every
command issued to the vehicle. -/
def runMonitor (c : Ctrl) : List Telemetry → Ctrl × List VehCmd
  | [] => (c, [])
  | t :: ts =>
    let r := monitorTick c t
    let rest := runMonitor r.1 ts
    (rest.1, r.2 ++ rest.2)

/-- Number of RTL mode commands in a command trace. -/
def countRTL (cmds : List VehCmd) : ℕ :=
  cmds.countP fun cmd => decide (cmd = VehCmd.setMode VMode.rtl)

/-!
Error handling of the `_monitor_drone` loop.  The loop body is wrapped in
`try: ... time.sleep(1) / except Exception as e: log; time.sleep(5)`, so an
iteration either completes its tick and sleeps one second, or raises, is
logged, and sleeps five seconds; in both cases the `while` loop proceeds to
the next iteration.  Exception values are modelled by their message string.
-/

/-- The outcome of executing one monitor tick body: the commands it issued,
or the exception it raised. -/
inductive TickOutcome where
  | ok (cmds : List VehCmd)
  | exn (msg : String)

/-- What the loop does after one iteration: continue after sleeping, or let
an exception escape the loop.  The second alternative is what the claim
rules out. -/
inductive LoopStep where
  | continueAfter (sleepSeconds : ℕ)
  | propagate (msg : String)
deriving DecidableEq

/-- The `try`/`except` wrapper of the monitor loop body: a completed tick is
followed by `time.sleep(1)`; any exception is caught, logged and followed by
`time.sleep(5)`.  Nothing is re-raised. -/
def handleTickOutcome : TickOutcome → LoopStep
  | .ok _ => .continueAfter 1
  | .exn _ => .continueAfter 5

/-- The monitor loop over a sequence of tick outcomes: every iteration is
handled by the wrapper and the loop moves to the next one. -/
def monitorLoopSchedule (outcomes : List TickOutcome) : List LoopStep :=
  outcomes.map handleTickOutcome

/-!
Concurrency structure of the command path (claim C9).  Two threads issue
vehicle-mutating calls: the `_monitor_drone` thread (battery
`return_to_home`, geofence `move_to_coordinates`) and the `control_loop`
thread of `DroneSystem` (`handle_command` / `handle_emergency` dispatching
to `move_to_coordinates`, `return_to_home`, `land`, `takeoff`,
`load_mission`).  Neither `drone_controller.py` nor `main.py` contains a
lock, queue hand-off or any other synchronization on the vehicle handle
(the only lock in the repository is the detector frame lock inside the
perception component): both threads call the vehicle methods directly.  A
thread is therefore modelled as the begin/end bracket of its vehicle call,
and the possible executions are all interleavings of the two brackets.
-/

/-- An atomic step of an issuer thread around a vehicle-mutating call. -/
inductive LinkAction where
  | beginCmd
  | endCmd
deriving DecidableEq

/-- The monitor thread issuing one corrective vehicle command: it enters the
vehicle call and returns from it, with no synchronization action around
either step. -/
def monitorIssuerActions : List LinkAction := [.beginCmd, .endCmd]

/-- The control-loop thread issuing one commanded vehicle call, equally
unsynchronized. -/
def controlIssuerActions : List LinkAction := [.beginCmd, .endCmd]

/-- `Interleaving xs ys zs`: `zs` is an order-preserving merge of the two
thread traces `xs` and `ys` — the executions a preemptive scheduler can
produce when nothing forces mutual exclusion. -/
inductive Interleaving : List LinkAction → List LinkAction → List LinkAction → Prop where
  | nil : Interleaving [] [] []
  | left {x xs ys zs} : Interleaving xs ys zs → Interleaving (x :: xs) ys (x :: zs)
  | right {y xs ys zs} : Interleaving xs ys zs → Interleaving xs (y :: ys) (y :: zs)

/-- The largest number of simultaneously in-flight vehicle commands along a
trace, starting from `n` currently in flight. -/
def maxInFlight : List LinkAction → ℕ → ℕ
  | [], n => n
  | .beginCmd :: rest, n => max (n + 1) (maxInFlight rest (n + 1))
  | .endCmd :: rest, n => max n (maxInFlight rest (n - 1))

/-!
Concrete configurations used by the witnesses and counterexamples below.
-/

/-- A geofence whose single boundary is the axis-aligned square polygon with
corners (0,0) and (2,2) in degree coordinates (ring stored closed), with
the default altitude and buffer configuration. -/
def gmSquare : Geofence :=
  { boundaries := [.polygon [⟨0,0⟩, ⟨2,0⟩, ⟨2,2⟩, ⟨0,2⟩, ⟨0,0⟩]]
    maxAltitude := 30, minAltitude := 2, bufferDistance := 5 }

/-- A geofence whose single boundary is the circle of radius 10 meters
centered at latitude 0, longitude 0, with the default buffer of 5 meters. -/
def gmCircle10 : Geofence :=
  { boundaries := [.circle 0 0 10]
    maxAltitude := 30, minAltitude := 2, bufferDistance := 5 }

/-- A geofence whose single boundary is the circle of radius 5 meters with
buffer distance also 5 meters: the interpolation length equals the buffer. -/
def gmCircleEq : Geofence :=
  { boundaries := [.circle 0 0 5]
    maxAltitude := 30, minAltitude := 2, bufferDistance := 5 }

/-- A geofence with no boundaries configured. -/
def gmEmpty : Geofence :=
  { boundaries := [], maxAltitude := 30, minAltitude := 2, bufferDistance := 5 }

/-- A simulation-mode controller that is disconnected. -/
def ctrlSim : Ctrl :=
  { simulationMode := true, status := .DISCONNECTED, vehicle := none
    geofenceManager := none, maxAltitude := 30, returnAirspeed := 5
    criticalBatteryLevel := 15, lowBatteryLevel := 30
    currentMission := none, currentWaypointIndex := 0 }

/-- A non-simulation controller, flying, with a connected vehicle at 10 m
altitude and the 10 m circle geofence. -/
def ctrlFly : Ctrl :=
  { simulationMode := false, status := .FLYING, vehicle := some ⟨10⟩
    geofenceManager := some gmCircle10, maxAltitude := 30, returnAirspeed := 5
    criticalBatteryLevel := 15, lowBatteryLevel := 30
    currentMission := none, currentWaypointIndex := 0 }

/-- A telemetry snapshot in GUIDED flight with a critically low battery. -/
def telemCritical : Telemetry :=
  { mode := .guided, armed := true, batteryLevel := some 10
    lat := 0, lon := 0, nextWaypoint := 0 }

/-! ## Theorems -/

/-- Nonnegative reals with equal squares are equal (used to pin down the
distances characterized by `DistToBoundary`). -/
theorem sqrt_unique {a b : ℝ} (ha : 0 ≤ a) (hb : 0 ≤ b) (h : a ^ 2 = b ^ 2) :
    a = b := by
  nlinarith [sq_nonneg (a - b), sq_nonneg (a + b)]

/-- The distance characterization for a circle boundary with nonnegative
radius determines the distance uniquely. -/
theorem distTo_circle_unique {cLat cLon rM : ℚ} {p : Pt} {d e : ℝ} (hr : 0 ≤ rM)
    (hd : DistToBoundary (.circle cLat cLon rM) p d)
    (he : DistToBoundary (.circle cLat cLon rM) p e) : d = e := by
  have hr' : (0:ℝ) ≤ ((metersToDegrees rM : ℚ) : ℝ) := by
    have : (0:ℚ) ≤ metersToDegrees rM := div_nonneg hr (by norm_num)
    exact_mod_cast this
  have h1 := hd.2
  have h2 := he.2
  have := @sqrt_unique (d + ((metersToDegrees rM : ℚ) : ℝ))
    (e + ((metersToDegrees rM : ℚ) : ℝ))
    (by linarith [hd.1]) (by linarith [he.1]) (by rw [h1, h2])
  linarith

/-- The distance characterization for a polygon boundary determines the
distance uniquely. -/
theorem distTo_poly_unique {ring : List Pt} {p : Pt} {d e : ℝ}
    (hd : DistToBoundary (.polygon ring) p d)
    (he : DistToBoundary (.polygon ring) p e) : d = e :=
  sqrt_unique hd.1 he.1 (by rw [hd.2, he.2])

/-- The nearest-point relation carries the distance characterization. -/
theorem nearestOn_distTo {b : Boundary} {p q : Pt} {d : ℝ}
    (h : NearestOnBoundary b p q d) : DistToBoundary b p d := by
  cases b with
  | circle cLat cLon rM => exact ⟨h.2.2.2.1, h.2.2.2.2⟩
  | polygon ring => exact ⟨h.2.2.1, h.2.2.2⟩

/-- Strict interior containment implies closure membership. -/
theorem containsPt_closedContains {b : Boundary} {p : Pt}
    (h : b.containsPt p = true) : b.closedContains p := by
  cases b with
  | circle cLat cLon rM =>
      have := of_decide_eq_true h
      exact le_of_lt this
  | polygon ring =>
      have := h
      simp [Boundary.containsPt, polyContainsPt] at this
      exact Or.inl this.1

/-- Interpolating from a point of a circle toward its center by a
nonnegative fraction smaller than the radius stays within the closed
disc. -/
theorem interpolate_closer {q c : Pt} {r buf : ℚ} (hq : distSq q c = r ^ 2)
    (hbuf : 0 ≤ buf) (hlt : buf < r) :
    distSq (interpolateToward q c (buf / r)) c ≤ r ^ 2 := by
  have hr : 0 < r := lt_of_le_of_lt hbuf hlt
  have key : distSq (interpolateToward q c (buf / r)) c =
      (1 - buf / r) ^ 2 * distSq q c := by
    simp only [distSq, interpolateToward]
    ring
  have ht0 : 0 ≤ buf / r := div_nonneg hbuf hr.le
  have ht1 : buf / r ≤ 1 := (div_le_one hr).mpr hlt.le
  rw [key, hq]
  have h2t : (0:ℚ) ≤ 2 - buf / r := by linarith
  have hprod : 0 ≤ buf / r * (2 - buf / r) * r ^ 2 :=
    mul_nonneg (mul_nonneg ht0 h2t) (sq_nonneg r)
  nlinarith [hprod]

/-- C1 (amended): with at least one boundary configured and a nonnegative
buffer distance, every point `get_nearest_safe_point` can return lies in the
closure of some boundary geometry — inside it or exactly on its bounding
curve.  (Strict `is_point_inside` containment, which the claim as stated
asserts, fails in general: see the counterexample.) -/
theorem c1_nearest_safe_point_in_closure (g : Geofence) (lat lon : ℚ)
    (res : ℚ × ℚ) (hbuf : 0 ≤ g.bufferDistance) (hne : g.boundaries ≠ [])
    (h : GetNearestSafePoint g lat lon res) :
    ∃ b, b ∈ g.boundaries ∧ b.closedContains ⟨res.2, res.1⟩ := by
  cases h with
  | inside hany =>
      rcases List.any_eq_true.mp hany with ⟨b, hb, hc⟩
      exact ⟨b, hb, containsPt_closedContains hc⟩
  | noBoundaries h0 => exact absurd h0 hne
  | corrected i hi q d hany hnear hfirst hmin =>
      refine ⟨g.boundaries.get ⟨i, hi⟩, List.get_mem _ _ _, ?_⟩
      rcases hb : g.boundaries.get ⟨i, hi⟩ with ⟨cLat, cLon, rM⟩ | ring
      · rw [hb] at hnear
        have hq : distSq q ⟨cLon, cLat⟩ = metersToDegrees rM ^ 2 := hnear.1
        have hbufd : 0 ≤ metersToDegrees g.bufferDistance :=
          div_nonneg hbuf (by norm_num)
        simp only [resultFromWinner, Boundary.closedContains]
        split
        · next hcond => exact interpolate_closer hq hbufd hcond
        · exact le_of_eq hq
      · rw [hb] at hnear
        simp only [resultFromWinner, Boundary.closedContains]
        exact Or.inr hnear.1

/-- A concrete execution of `get_nearest_safe_point` on the square geofence:
the outside point latitude 1, longitude 3 is corrected to the ring point
latitude 1, longitude 2. -/
theorem gnsp_square_instance : GetNearestSafePoint gmSquare 1 3 (1, 2) := by
  have h0 : (0:ℕ) < gmSquare.boundaries.length := by norm_num [gmSquare]
  have hget : gmSquare.boundaries.get ⟨0, h0⟩ =
      Boundary.polygon [⟨0,0⟩, ⟨2,0⟩, ⟨2,2⟩, ⟨0,2⟩, ⟨0,0⟩] := rfl
  have hany : (gmSquare.boundaries.any fun b => b.containsPt ⟨3, 1⟩) = false := by
    norm_num [gmSquare, Boundary.containsPt, polyContainsPt, crossingsOdd, onRing,
      ringEdges, onSegment, distSq, psub, dotv, crossv]
  have hme : minEdgeDistSq [⟨0,0⟩, ⟨2,0⟩, ⟨2,2⟩, ⟨0,2⟩, ⟨0,0⟩] (⟨3,1⟩ : Pt) = 1 := by
    norm_num [minEdgeDistSq, ringEdges, segDistSq, distSq, psub, dotv]
  have hone : DistToBoundary (Boundary.polygon [⟨0,0⟩, ⟨2,0⟩, ⟨2,2⟩, ⟨0,2⟩, ⟨0,0⟩])
      ⟨3, 1⟩ 1 := by
    refine ⟨by norm_num, ?_⟩
    rw [hme]; norm_num
  have hnear : NearestOnBoundary (gmSquare.boundaries.get ⟨0, h0⟩) ⟨3, 1⟩ ⟨2, 1⟩ 1 := by
    rw [hget]
    refine ⟨?_, ?_, by norm_num, ?_⟩
    · norm_num [onRing, ringEdges, onSegment, psub, crossv]
    · rw [hme]; norm_num [distSq]
    · rw [hme]; norm_num
  have hmin : ∀ (j : ℕ) (hj : j < gmSquare.boundaries.length) (e : ℝ),
      DistToBoundary (gmSquare.boundaries.get ⟨j, hj⟩) ⟨3, 1⟩ e → (1:ℝ) ≤ e := by
    intro j hj e hd
    have hj' : j < 1 := by simpa [gmSquare] using hj
    have hj0 : j = 0 := by omega
    subst hj0
    have hd' : DistToBoundary (Boundary.polygon [⟨0,0⟩, ⟨2,0⟩, ⟨2,2⟩, ⟨0,2⟩, ⟨0,0⟩])
        ⟨3, 1⟩ e := hd
    have := distTo_poly_unique hone hd'
    linarith
  have hfirst : ∀ (j : ℕ) (hj : j < gmSquare.boundaries.length) (e : ℝ), j < 0 →
      DistToBoundary (gmSquare.boundaries.get ⟨j, hj⟩) ⟨3, 1⟩ e → (1:ℝ) < e := by
    intro j hj e hj0
    exact absurd hj0 (Nat.not_lt_zero j)
  have hinst : GetNearestSafePoint gmSquare 1 3
      (resultFromWinner gmSquare (gmSquare.boundaries.get ⟨0, h0⟩) ⟨2, 1⟩) :=
    GetNearestSafePoint.corrected 0 h0 ⟨2, 1⟩ 1 hany hnear hfirst hmin
  have hres : resultFromWinner gmSquare (gmSquare.boundaries.get ⟨0, h0⟩) ⟨2, 1⟩ =
      (1, 2) := by
    rw [hget]
    rfl
  rw [hres] at hinst
  exact hinst

/-- A concrete execution of `get_nearest_safe_point` on the 10 m circle
geofence: the outside point latitude 0, longitude 20/111111 is corrected to
the circle point nudged halfway to the center, latitude 0, longitude
5/111111. -/
theorem gnsp_circle10_instance :
    GetNearestSafePoint gmCircle10 0 (20/111111) (0, 5/111111) := by
  have h0 : (0:ℕ) < gmCircle10.boundaries.length := by norm_num [gmCircle10]
  have hget : gmCircle10.boundaries.get ⟨0, h0⟩ = Boundary.circle 0 0 10 := rfl
  have hany : (gmCircle10.boundaries.any fun b => b.containsPt ⟨20/111111, 0⟩) = false := by
    norm_num [gmCircle10, Boundary.containsPt, distSq, metersToDegrees]
  have hD : DistToBoundary (Boundary.circle 0 0 10) ⟨20/111111, 0⟩ ((10:ℝ)/111111) := by
    refine ⟨by norm_num, ?_⟩
    push_cast [metersToDegrees, distSq]
    norm_num
  have hnear : NearestOnBoundary (gmCircle10.boundaries.get ⟨0, h0⟩) ⟨20/111111, 0⟩
      ⟨10/111111, 0⟩ ((10:ℝ)/111111) := by
    rw [hget]
    refine ⟨?_, ?_, ?_, by norm_num, ?_⟩
    · norm_num [distSq, metersToDegrees]
    · norm_num [psub, crossv]
    · norm_num [psub, dotv]
    · push_cast [metersToDegrees, distSq]
      norm_num
  have hmin : ∀ (j : ℕ) (hj : j < gmCircle10.boundaries.length) (e : ℝ),
      DistToBoundary (gmCircle10.boundaries.get ⟨j, hj⟩) ⟨20/111111, 0⟩ e →
      (10:ℝ)/111111 ≤ e := by
    intro j hj e hd
    have hj' : j < 1 := by simpa [gmCircle10] using hj
    have hj0 : j = 0 := by omega
    subst hj0
    have hd' : DistToBoundary (Boundary.circle 0 0 10) ⟨20/111111, 0⟩ e := hd
    have := distTo_circle_unique (by norm_num) hD hd'
    linarith
  have hfirst : ∀ (j : ℕ) (hj : j < gmCircle10.boundaries.length) (e : ℝ), j < 0 →
      DistToBoundary (gmCircle10.boundaries.get ⟨j, hj⟩) ⟨20/111111, 0⟩ e →
      (10:ℝ)/111111 < e := by
    intro j hj e hj0
    exact absurd hj0 (Nat.not_lt_zero j)
  have hinst : GetNearestSafePoint gmCircle10 0 (20/111111)
      (resultFromWinner gmCircle10 (gmCircle10.boundaries.get ⟨0, h0⟩) ⟨10/111111, 0⟩) :=
    GetNearestSafePoint.corrected 0 h0 ⟨10/111111, 0⟩ ((10:ℝ)/111111) hany hnear hfirst hmin
  have hres : resultFromWinner gmCircle10 (gmCircle10.boundaries.get ⟨0, h0⟩)
      ⟨10/111111, 0⟩ = (0, 5/111111) := by
    rw [hget]
    norm_num [resultFromWinner, metersToDegrees, interpolateToward, gmCircle10]
  rw [hres] at hinst
  exact hinst

/-- C1 counterexample: on the square geofence, the safe point computed for
the outside position (1, 3) is the ring point (1, 2), which `is_point_inside`
reports as outside — so the claim that the corrected point always satisfies
`is_point_inside` fails even though a boundary is configured. -/
theorem c1_counterexample :
    GetNearestSafePoint gmSquare 1 3 (1, 2) ∧
    gmSquare.boundaries ≠ [] ∧
    is_point_inside gmSquare 1 2 none = false := by
  refine ⟨gnsp_square_instance, by simp [gmSquare], ?_⟩
  norm_num [is_point_inside, gmSquare, Boundary.containsPt, polyContainsPt,
    crossingsOdd, onRing, ringEdges, onSegment, distSq, psub, dotv, crossv]

/-- Witness for the amended C1 at a concrete input: the corrected point of
the circle geofence lies in the closure of its boundary. -/
theorem c1_nearest_safe_point_in_closure_witness :
    ∃ b, b ∈ gmCircle10.boundaries ∧ b.closedContains ⟨(5:ℚ)/111111, 0⟩ :=
  c1_nearest_safe_point_in_closure gmCircle10 0 (20/111111) (0, 5/111111)
    (by norm_num [gmCircle10]) (by simp [gmCircle10]) gnsp_circle10_instance

/-- C2: union semantics of containment — with no altitude supplied,
`is_point_inside` reports true exactly when the point is strictly inside the
geometry of at least one configured boundary, so a point inside one boundary
is inside overall regardless of the others, and a point in no boundary is
outside. -/
theorem c2_union_semantics (g : Geofence) (lat lon : ℚ) :
    is_point_inside g lat lon none = true ↔
    ∃ b, b ∈ g.boundaries ∧ b.containsPt ⟨lon, lat⟩ = true := by
  simp [is_point_inside, List.any_eq_true]

/-- C3: the altitude check fails closed — an altitude outside
`[min_altitude, max_altitude]` makes `is_point_inside` false regardless of
2D containment, and an in-range altitude leaves the 2D answer unchanged, so
the check is applied in addition to boundary containment. -/
theorem c3_altitude_fails_closed (g : Geofence) (lat lon a : ℚ) :
    ((a < g.minAltitude ∨ g.maxAltitude < a) →
      is_point_inside g lat lon (some a) = false) ∧
    (g.minAltitude ≤ a → a ≤ g.maxAltitude →
      is_point_inside g lat lon (some a) = is_point_inside g lat lon none) := by
  constructor
  · intro h
    rcases h with h | h <;> simp [is_point_inside, h]
  · intro h1 h2
    have hx : ¬ g.maxAltitude < a := not_lt.mpr h2
    have hy : ¬ a < g.minAltitude := not_lt.mpr h1
    simp [is_point_inside, hx, hy]

/-- Witness for C3 at a concrete input: altitude 50 m is above the 30 m
ceiling of `gmSquare` and is rejected. -/
theorem c3_altitude_fails_closed_witness :
    is_point_inside gmSquare 1 1 (some 50) = false :=
  (c3_altitude_fails_closed gmSquare 1 1 50).1 (Or.inr (by norm_num [gmSquare]))

/-- C4 counterexample: in simulation mode, `move_to_coordinates` reports
success while the controller is Disconnected — there is no rejection, so
the claim that a `move_to` attempted in any non-Flying state fails does not
hold of the function as a whole. -/
theorem c4_counterexample :
    MoveToCoordinates ctrlSim ⟨some 1, some 2⟩ none ⟨true, ctrlSim, none⟩ ∧
    ctrlSim.status = DroneStatus.DISCONNECTED ∧
    ¬ (∀ out, MoveToCoordinates ctrlSim ⟨some 1, some 2⟩ none out → out.ok = false) := by
  refine ⟨.sim rfl, rfl, ?_⟩
  intro hall
  have h := hall ⟨true, ctrlSim, none⟩ (.sim rfl)
  simp at h

/-- C4 (amended): `move_to_coordinates` never mutates the controller, so the
state is unchanged on every path; outside simulation mode a call in any
state other than Flying is rejected (returns false and forwards nothing to
the vehicle); and on the forwarding path an out-of-geofence target is
silently replaced by a `get_nearest_safe_point` result before `simple_goto`. -/
theorem c4_move_to_guard_and_geofence (c : Ctrl) (loc : Loc) (altitude : Option ℚ)
    (out : MoveOut) (h : MoveToCoordinates c loc altitude out) :
    out.ctrl = c ∧
    (c.simulationMode = false → c.status ≠ DroneStatus.FLYING →
      out.ok = false ∧ out.sent = none) ∧
    (∀ g la lo, c.geofenceManager = some g → loc.latitude = some la →
      loc.longitude = some lo → is_point_inside g la lo none = false →
      ∀ tgt, out.sent = some tgt →
      ∃ sla slo, GetNearestSafePoint g la lo (sla, slo) ∧
        tgt.1 = sla ∧ tgt.2.1 = slo) := by
  cases h with
  | sim hsim =>
      refine ⟨rfl, ?_, ?_⟩
      · intro hf
        rw [hf] at hsim
        exact absurd hsim (by simp)
      · intro g la lo _ _ _ _ tgt htgt
        exact absurd htgt (by simp)
  | noVehicle hsim hv =>
      exact ⟨rfl, fun _ _ => ⟨rfl, rfl⟩, fun g la lo _ _ _ _ tgt htgt => absurd htgt (by simp)⟩
  | notFlying v hsim hv hst =>
      exact ⟨rfl, fun _ _ => ⟨rfl, rfl⟩, fun g la lo _ _ _ _ tgt htgt => absurd htgt (by simp)⟩
  | invalidCoords v hsim hv hst hbad =>
      exact ⟨rfl, fun _ _ => ⟨rfl, rfl⟩, fun g la lo _ _ _ _ tgt htgt => absurd htgt (by simp)⟩
  | noGeofence v la lo hsim hv hst hla hlo hg =>
      refine ⟨rfl, fun _ hnf => absurd hst hnf, ?_⟩
      intro g la0 lo0 hg0 _ _ _ tgt _
      rw [hg] at hg0
      exact absurd hg0 (by simp)
  | inBounds v g la lo hsim hv hst hla hlo hg hin =>
      refine ⟨rfl, fun _ hnf => absurd hst hnf, ?_⟩
      intro g0 la0 lo0 hg0 hla0 hlo0 hout tgt _
      rw [hg] at hg0
      rw [hla] at hla0
      rw [hlo] at hlo0
      cases hg0
      cases hla0
      cases hlo0
      rw [hin] at hout
      exact absurd hout (by simp)
  | outOfBounds v g la lo sla slo hsim hv hst hla hlo hg hout hgn =>
      refine ⟨rfl, fun _ hnf => absurd hst hnf, ?_⟩
      intro g0 la0 lo0 hg0 hla0 hlo0 _ tgt htgt
      rw [hg] at hg0
      rw [hla] at hla0
      rw [hlo] at hlo0
      cases hg0
      cases hla0
      cases hlo0
      rcases Option.some_injective _ htgt.symm with rfl
      exact ⟨sla, slo, hgn, rfl, rfl⟩

/-- A concrete execution of `move_to_coordinates` on a flying controller:
the out-of-geofence target latitude 0, longitude 20/111111 is silently
replaced by the safe point latitude 0, longitude 5/111111 before being
forwarded at the current 10 m altitude. -/
theorem mv_outOfBounds_instance :
    MoveToCoordinates ctrlFly ⟨some 0, some (20/111111)⟩ none
      ⟨true, ctrlFly, some (0, 5/111111, 10)⟩ := by
  have hout : is_point_inside gmCircle10 0 (20/111111) none = false := by
    norm_num [is_point_inside, gmCircle10, Boundary.containsPt, distSq, metersToDegrees]
  exact MoveToCoordinates.outOfBounds ⟨10⟩ gmCircle10 0 (20/111111) 0 (5/111111)
    rfl rfl rfl rfl rfl rfl hout gnsp_circle10_instance

/-- Witness for the amended C4 at a concrete input: the controller is
unchanged and the forwarded target is a `get_nearest_safe_point` result for
the out-of-geofence request. -/
theorem c4_move_to_guard_and_geofence_witness :
    (⟨true, ctrlFly, some (0, 5/111111, 10)⟩ : MoveOut).ctrl = ctrlFly ∧
    (∃ sla slo, GetNearestSafePoint gmCircle10 0 (20/111111) (sla, slo) ∧
      ((0:ℚ), (5:ℚ)/111111, (10:ℚ)).1 = sla ∧ ((0:ℚ), (5:ℚ)/111111, (10:ℚ)).2.1 = slo) := by
  have hout : is_point_inside gmCircle10 0 (20/111111) none = false := by
    norm_num [is_point_inside, gmCircle10, Boundary.containsPt, distSq, metersToDegrees]
  have h := c4_move_to_guard_and_geofence ctrlFly ⟨some 0, some (20/111111)⟩ none
    ⟨true, ctrlFly, some (0, 5/111111, 10)⟩ mv_outOfBounds_instance
  exact ⟨h.1, h.2.2 gmCircle10 0 (20/111111) rfl rfl rfl hout (0, 5/111111, 10) rfl⟩

/-- C6: `calculate_breach_distance` returns 0 when the point is inside the
geofence (2D containment, no altitude), and otherwise returns the least
distance from the point to any boundary geometry multiplied by the fixed
factor 111111. -/
theorem c6_breach_distance (g : Geofence) (lat lon : ℚ) (m : ℝ)
    (h : CalculateBreachDistance g lat lon m) :
    (is_point_inside g lat lon none = true ∧ m = 0) ∨
    (is_point_inside g lat lon none = false ∧
      ∃ dmin : ℝ, IsLeast (boundaryDistSet g ⟨lon, lat⟩) dmin ∧ m = dmin * 111111) := by
  cases h with
  | inside hany => exact Or.inl ⟨hany, rfl⟩
  | outside i hi dmin hany hdist hmin =>
      refine Or.inr ⟨hany, dmin,
        ⟨⟨g.boundaries.get ⟨i, hi⟩, List.get_mem _ _ _, hdist⟩, ?_⟩, rfl⟩
      rintro e ⟨b, hb, hdb⟩
      rcases List.mem_iff_get.mp hb with ⟨n, hn⟩
      refine hmin n.1 n.2 e ?_
      rw [hn]
      exact hdb

/-- A concrete execution of `calculate_breach_distance` on the 10 m circle
geofence: the point latitude 0, longitude 20/111111 is 10/111111 degrees
outside the circle. -/
theorem breach_circle10_instance :
    CalculateBreachDistance gmCircle10 0 (20/111111) ((10:ℝ)/111111 * 111111) := by
  have h0 : (0:ℕ) < gmCircle10.boundaries.length := by norm_num [gmCircle10]
  have hget : gmCircle10.boundaries.get ⟨0, h0⟩ = Boundary.circle 0 0 10 := rfl
  have hany : (gmCircle10.boundaries.any fun b => b.containsPt ⟨20/111111, 0⟩) = false := by
    norm_num [gmCircle10, Boundary.containsPt, distSq, metersToDegrees]
  have hD : DistToBoundary (Boundary.circle 0 0 10) ⟨20/111111, 0⟩ ((10:ℝ)/111111) := by
    refine ⟨by norm_num, ?_⟩
    push_cast [metersToDegrees, distSq]
    norm_num
  have hmin : ∀ (j : ℕ) (hj : j < gmCircle10.boundaries.length) (e : ℝ),
      DistToBoundary (gmCircle10.boundaries.get ⟨j, hj⟩) ⟨20/111111, 0⟩ e →
      (10:ℝ)/111111 ≤ e := by
    intro j hj e hd
    have hj' : j < 1 := by simpa [gmCircle10] using hj
    have hj0 : j = 0 := by omega
    subst hj0
    have hd' : DistToBoundary (Boundary.circle 0 0 10) ⟨20/111111, 0⟩ e := hd
    have := distTo_circle_unique (by norm_num) hD hd'
    linarith
  have hmem : DistToBoundary (gmCircle10.boundaries.get ⟨0, h0⟩) ⟨20/111111, 0⟩
      ((10:ℝ)/111111) := by
    rw [hget]; exact hD
  exact CalculateBreachDistance.outside 0 h0 ((10:ℝ)/111111) hany hmem hmin

/-- Witness for C6 at a concrete input: the breach distance of the point
10/111111 degrees outside the 10 m circle is the least boundary distance
times 111111. -/
theorem c6_breach_distance_witness :
    (is_point_inside gmCircle10 0 (20/111111) none = true ∧
      ((10:ℝ)/111111 * 111111) = 0) ∨
    (is_point_inside gmCircle10 0 (20/111111) none = false ∧
      ∃ dmin : ℝ, IsLeast (boundaryDistSet gmCircle10 ⟨20/111111, 0⟩) dmin ∧
        (10:ℝ)/111111 * 111111 = dmin * 111111) :=
  c6_breach_distance gmCircle10 0 (20/111111) ((10:ℝ)/111111 * 111111)
    breach_circle10_instance

/-- The source post-processing of the winning boundary point coincides with
the claim-side post-processing under the strict reading of the overshoot
condition. -/
theorem resultFromWinner_eq_claim (g : Geofence) (b : Boundary) (q : Pt) :
    resultFromWinner g b q = claimCorrectedPoint true g b q := by
  cases b <;> rfl

/-- C7 (amended): with at least one boundary configured,
`get_nearest_safe_point` behaves exactly as the claim describes once the
overshoot condition is read as "the nudge would reach or pass the center"
(buffer ≥ radius): inside points are returned unchanged, and otherwise the
first boundary attaining the least distance wins, with a circle winner
nudged toward its center by the buffer distance only when the buffer is
strictly smaller than the radius. -/
theorem c7_nearest_safe_point_vs_claim (g : Geofence) (lat lon : ℚ) (res : ℚ × ℚ)
    (hne : g.boundaries ≠ []) :
    GetNearestSafePoint g lat lon res ↔ NearestSafePointClaim true g lat lon res := by
  constructor
  · intro h
    cases h with
    | inside hany => exact .insideCase hany
    | noBoundaries h0 => exact absurd h0 hne
    | corrected i hi q d hany hnear hfirst hmin =>
        have hleast : IsLeast (boundaryDistSet g ⟨lon, lat⟩) d := by
          constructor
          · exact ⟨g.boundaries.get ⟨i, hi⟩, List.get_mem _ _ _, nearestOn_distTo hnear⟩
          · rintro e ⟨b, hb, hdb⟩
            rcases List.mem_iff_get.mp hb with ⟨n, hn⟩
            refine hmin n.1 n.2 e ?_
            rw [hn]
            exact hdb
        rw [resultFromWinner_eq_claim]
        exact .correctedCase i hi q d hany hleast hnear hfirst
  · intro h
    cases h with
    | insideCase hin => exact .inside hin
    | correctedCase i hi q d hin hleast hnear hfirst =>
        have hmin : ∀ (j : ℕ) (hj : j < g.boundaries.length) (e : ℝ),
            DistToBoundary (g.boundaries.get ⟨j, hj⟩) ⟨lon, lat⟩ e → d ≤ e := by
          intro j hj e hd
          exact hleast.2 ⟨g.boundaries.get ⟨j, hj⟩, List.get_mem _ _ _, hd⟩
        rw [← resultFromWinner_eq_claim]
        exact .corrected i hi q d hin hnear hfirst hmin

/-- A concrete execution of `get_nearest_safe_point` on the 5 m circle with
5 m buffer: for the outside point latitude 0, longitude 10/111111 the
interpolation line length equals the buffer, the nudge is skipped, and the
un-nudged circle point latitude 0, longitude 5/111111 is returned. -/
theorem gnsp_circleEq_instance :
    GetNearestSafePoint gmCircleEq 0 (10/111111) (0, 5/111111) := by
  have h0 : (0:ℕ) < gmCircleEq.boundaries.length := by norm_num [gmCircleEq]
  have hget : gmCircleEq.boundaries.get ⟨0, h0⟩ = Boundary.circle 0 0 5 := rfl
  have hany : (gmCircleEq.boundaries.any fun b => b.containsPt ⟨10/111111, 0⟩) = false := by
    norm_num [gmCircleEq, Boundary.containsPt, distSq, metersToDegrees]
  have hD : DistToBoundary (Boundary.circle 0 0 5) ⟨10/111111, 0⟩ ((5:ℝ)/111111) := by
    refine ⟨by norm_num, ?_⟩
    push_cast [metersToDegrees, distSq]
    norm_num
  have hnear : NearestOnBoundary (gmCircleEq.boundaries.get ⟨0, h0⟩) ⟨10/111111, 0⟩
      ⟨5/111111, 0⟩ ((5:ℝ)/111111) := by
    rw [hget]
    refine ⟨?_, ?_, ?_, by norm_num, ?_⟩
    · norm_num [distSq, metersToDegrees]
    · norm_num [psub, crossv]
    · norm_num [psub, dotv]
    · push_cast [metersToDegrees, distSq]
      norm_num
  have hmin : ∀ (j : ℕ) (hj : j < gmCircleEq.boundaries.length) (e : ℝ),
      DistToBoundary (gmCircleEq.boundaries.get ⟨j, hj⟩) ⟨10/111111, 0⟩ e →
      (5:ℝ)/111111 ≤ e := by
    intro j hj e hd
    have hj' : j < 1 := by simpa [gmCircleEq] using hj
    have hj0 : j = 0 := by omega
    subst hj0
    have hd' : DistToBoundary (Boundary.circle 0 0 5) ⟨10/111111, 0⟩ e := hd
    have := distTo_circle_unique (by norm_num) hD hd'
    linarith
  have hfirst : ∀ (j : ℕ) (hj : j < gmCircleEq.boundaries.length) (e : ℝ), j < 0 →
      DistToBoundary (gmCircleEq.boundaries.get ⟨j, hj⟩) ⟨10/111111, 0⟩ e →
      (5:ℝ)/111111 < e := by
    intro j hj e hj0
    exact absurd hj0 (Nat.not_lt_zero j)
  have hinst : GetNearestSafePoint gmCircleEq 0 (10/111111)
      (resultFromWinner gmCircleEq (gmCircleEq.boundaries.get ⟨0, h0⟩) ⟨5/111111, 0⟩) :=
    GetNearestSafePoint.corrected 0 h0 ⟨5/111111, 0⟩ ((5:ℝ)/111111) hany hnear hfirst hmin
  have hres : resultFromWinner gmCircleEq (gmCircleEq.boundaries.get ⟨0, h0⟩)
      ⟨5/111111, 0⟩ = (0, 5/111111) := by
    rw [hget]
    norm_num [resultFromWinner, metersToDegrees, gmCircleEq]
  rw [hres] at hinst
  exact hinst

/-- C7 counterexample: on the 5 m circle with 5 m buffer, the source returns
the un-nudged boundary point (0, 5/111111) because the interpolation is
guarded by a strict comparison, while the claim as stated — nudge unless the
move would overshoot the center — only relates this input to the fully
nudged point, the center (0, 0).  The two differ. -/
theorem c7_counterexample :
    GetNearestSafePoint gmCircleEq 0 (10/111111) (0, 5/111111) ∧
    (∀ res, NearestSafePointClaim false gmCircleEq 0 (10/111111) res → res = (0, 0)) ∧
    ((0:ℚ), (5:ℚ)/111111) ≠ ((0:ℚ), (0:ℚ)) := by
  refine ⟨gnsp_circleEq_instance, ?_, by norm_num⟩
  intro res h
  cases h with
  | insideCase hin =>
      have hfalse : is_point_inside gmCircleEq 0 (10/111111) none = false := by
        norm_num [is_point_inside, gmCircleEq, Boundary.containsPt, distSq, metersToDegrees]
      rw [hfalse] at hin
      exact absurd hin (by simp)
  | correctedCase i hi q d hin hleast hnear hfirst =>
      have hj' : i < 1 := by simpa [gmCircleEq] using hi
      have hi0 : i = 0 := by omega
      subst hi0
      obtain ⟨qx, qy⟩ := q
      have hnear' : NearestOnBoundary (Boundary.circle 0 0 5) ⟨10/111111, 0⟩
          ⟨qx, qy⟩ d := hnear
      obtain ⟨hq, hcross, hdot, hd0, hd2⟩ := hnear'
      have hqy : qy = 0 := by
        simp only [crossv, psub] at hcross
        norm_num at hcross
        linarith [hcross]
      subst hqy
      have hqsq : qx ^ 2 = (5 / 111111 : ℚ) ^ 2 := by
        simp only [distSq, metersToDegrees] at hq
        norm_num at hq ⊢
        linarith [hq]
      have hqpos : 0 ≤ qx := by
        simp only [dotv, psub] at hdot
        norm_num at hdot
        linarith [hdot]
      have hqx : qx = 5 / 111111 := by
        nlinarith [sq_nonneg (qx - 5/111111), sq_nonneg (qx + 5/111111)]
      subst hqx
      show claimCorrectedPoint false gmCircleEq (gmCircleEq.boundaries.get ⟨0, hi⟩)
          ⟨5/111111, 0⟩ = (0, 0)
      norm_num [claimCorrectedPoint, metersToDegrees, interpolateToward, gmCircleEq]

/-- Witness for the amended C7 at a concrete input: the claim-side relation
holds of the corrected point the source computes on the 10 m circle. -/
theorem c7_nearest_safe_point_vs_claim_witness :
    NearestSafePointClaim true gmCircle10 0 (20/111111) (0, 5/111111) :=
  (c7_nearest_safe_point_vs_claim gmCircle10 0 (20/111111) (0, 5/111111)
    (by simp [gmCircle10])).mp gnsp_circle10_instance

/-- The mode-reconciliation step only ever rewrites the status field, and
only to Landing or Returning. -/
theorem syncMode_fields (c : Ctrl) (t : Telemetry) :
    (syncMode c t).simulationMode = c.simulationMode ∧
    (syncMode c t).vehicle = c.vehicle ∧
    (syncMode c t).criticalBatteryLevel = c.criticalBatteryLevel ∧
    ((syncMode c t).status = c.status ∨ (syncMode c t).status = .LANDING ∨
      (syncMode c t).status = .RETURNING) := by
  unfold syncMode
  split_ifs <;> simp

/-- The landing-detection step only ever rewrites the status field, and only
to Connected. -/
theorem checkLanded_fields (c : Ctrl) (t : Telemetry) :
    (checkLanded c t).simulationMode = c.simulationMode ∧
    (checkLanded c t).vehicle = c.vehicle ∧
    (checkLanded c t).criticalBatteryLevel = c.criticalBatteryLevel ∧
    ((checkLanded c t).status = c.status ∨ (checkLanded c t).status = .CONNECTED) := by
  unfold checkLanded
  split_ifs <;> simp

/-- The mission-progress step never touches the status or the fields the
battery policy reads. -/
theorem syncMission_fields (c : Ctrl) (t : Telemetry) :
    (syncMission c t).simulationMode = c.simulationMode ∧
    (syncMission c t).vehicle = c.vehicle ∧
    (syncMission c t).criticalBatteryLevel = c.criticalBatteryLevel ∧
    (syncMission c t).status = c.status := by
  unfold syncMission
  split_ifs <;> simp

/-- Outside simulation mode, the battery policy of a tick is a no-op
whenever the controller is not Flying: `return_to_home` refuses and issues
nothing. -/
theorem batteryCheck_not_flying (c : Ctrl) (t : Telemetry)
    (hsim : c.simulationMode = false) (h : c.status ≠ DroneStatus.FLYING) :
    batteryCheck c t = (c, []) := by
  unfold batteryCheck return_to_home
  cases t.batteryLevel with
  | none => rfl
  | some lvl =>
      simp only [hsim, Bool.false_eq_true, if_false]
      cases c.vehicle with
      | none => split_ifs <;> rfl
      | some v => split_ifs <;> simp_all


/-- The geofence policy of a tick issues nothing unless the controller is
Flying. -/
theorem geofenceCheck_not_flying (c : Ctrl) (t : Telemetry)
    (h : c.status ≠ DroneStatus.FLYING) : geofenceCheck c t = [] := by
  unfold geofenceCheck
  cases c.geofenceManager with
  | none => rfl
  | some g => simp [h]

/-- Outside simulation mode, a monitor tick from any non-Flying status
leaves the controller non-Flying (and outside simulation mode) and issues no
RTL command: the monitor never makes the drone take off, and
`return_to_home` is a no-op off the Flying state. -/
theorem monitorTick_not_flying (c : Ctrl) (t : Telemetry)
    (hsim : c.simulationMode = false) (h : c.status ≠ DroneStatus.FLYING) :
    (monitorTick c t).1.status ≠ DroneStatus.FLYING ∧
    countRTL (monitorTick c t).2 = 0 ∧
    (monitorTick c t).1.simulationMode = false := by
  obtain ⟨hs1, _, _, hst1⟩ := syncMode_fields c t
  obtain ⟨hs2, _, _, hst2⟩ := checkLanded_fields (syncMode c t) t
  obtain ⟨hs3, _, _, hst3⟩ := syncMission_fields (checkLanded (syncMode c t) t) t
  have hnf1 : (syncMode c t).status ≠ DroneStatus.FLYING := by
    rcases hst1 with h1 | h1 | h1 <;> rw [h1] <;> simp_all
  have hnf2 : (checkLanded (syncMode c t) t).status ≠ DroneStatus.FLYING := by
    rcases hst2 with h2 | h2 <;> rw [h2] <;> simp_all
  have hnf3 : (syncMission (checkLanded (syncMode c t) t) t).status ≠ DroneStatus.FLYING := by
    rw [hst3]; exact hnf2
  have hsim3 : (syncMission (checkLanded (syncMode c t) t) t).simulationMode = false := by
    rw [hs3, hs2, hs1]; exact hsim
  have hbat := batteryCheck_not_flying _ t hsim3 hnf3
  simp only [monitorTick, hbat]
  refine ⟨hnf3, ?_, hsim3⟩
  rw [geofenceCheck_not_flying _ t hnf3]
  rfl

/-- Outside simulation mode, no run of the monitor starting from a
non-Flying status ever issues an RTL command. -/
theorem runMonitor_not_flying (c : Ctrl) (ts : List Telemetry)
    (hsim : c.simulationMode = false) (h : c.status ≠ DroneStatus.FLYING) :
    countRTL (runMonitor c ts).2 = 0 := by
  induction ts generalizing c with
  | nil => rfl
  | cons t ts ih =>
      obtain ⟨h1, h2, h3⟩ := monitorTick_not_flying c t hsim h
      have hrest := ih (monitorTick c t).1 h3 h1
      simp only [runMonitor, countRTL, List.countP_append] at h2 hrest ⊢
      omega

/-- `return_to_home` on a flying, non-simulation controller with a vehicle:
set the return airspeed, command RTL mode and mark the controller
Returning. -/
theorem return_to_home_flying (c : Ctrl) (v : Vehicle)
    (hsim : c.simulationMode = false) (hv : c.vehicle = some v)
    (hst : c.status = DroneStatus.FLYING) :
    return_to_home c = ({ c with status := .RETURNING }, true,
      [.setAirspeed c.returnAirspeed, .setMode .rtl]) := by
  unfold return_to_home
  rw [hsim, hv]
  simp [hst]

/-- The battery policy on a flying, non-simulation controller with a
critically low battery reading: exactly the `return_to_home` effect. -/
theorem batteryCheck_critical (c : Ctrl) (t : Telemetry) (v : Vehicle) (lvl : ℚ)
    (hsim : c.simulationMode = false) (hv : c.vehicle = some v)
    (hst : c.status = DroneStatus.FLYING)
    (hb : t.batteryLevel = some lvl) (hcrit : lvl < c.criticalBatteryLevel) :
    batteryCheck c t = ({ c with status := .RETURNING },
      [.setAirspeed c.returnAirspeed, .setMode .rtl]) := by
  unfold batteryCheck
  rw [hb]
  simp only [if_pos hcrit, return_to_home_flying c v hsim hv hst]

/-- A monitor tick of a flying, non-simulation controller with a connected
vehicle, telemetry mode neither LAND nor RTL, and a critically low battery:
the tick issues exactly one RTL command and leaves the controller
Returning. -/
theorem monitorTick_first_critical (c : Ctrl) (t : Telemetry) (v : Vehicle) (lvl : ℚ)
    (hsim : c.simulationMode = false) (hst : c.status = DroneStatus.FLYING)
    (hv : c.vehicle = some v)
    (hm1 : t.mode ≠ VMode.land) (hm2 : t.mode ≠ VMode.rtl)
    (hb : t.batteryLevel = some lvl) (hcrit : lvl < c.criticalBatteryLevel) :
    (monitorTick c t).1.status = DroneStatus.RETURNING ∧
    countRTL (monitorTick c t).2 = 1 ∧
    (monitorTick c t).1.simulationMode = false := by
  have h1 : syncMode c t = c := by
    unfold syncMode
    rw [if_neg (by simp [hm1]), if_neg (by simp [hm2])]
  have h2 : checkLanded c t = c := by
    unfold checkLanded
    rw [if_neg (by simp [hst])]
  obtain ⟨hs3, hv3, hc3, hst3⟩ := syncMission_fields c t
  have hbat := batteryCheck_critical (syncMission c t) t v lvl
    (by rw [hs3]; exact hsim) (by rw [hv3]; exact hv) (by rw [hst3]; exact hst)
    hb (by rw [hc3]; exact hcrit)
  have hgeo : geofenceCheck { syncMission c t with status := DroneStatus.RETURNING } t
      = [] := geofenceCheck_not_flying _ t (by simp)
  simp only [monitorTick]
  rw [h1, h2, hbat]
  simp only [hgeo]
  refine ⟨by simp, ?_, by simp [hs3, hsim]⟩
  simp [countRTL]

/-- C5: crossing the critical battery threshold while flying issues exactly
one RTL command for the whole ensuing run of the monitor — the first tick
commands RTL and marks the controller Returning, and every later tick
issues no further RTL no matter what the battery reads, because
`return_to_home` is a no-op off the Flying state and the monitor never
re-enters Flying. -/
theorem c5_battery_critical_single_rtl (c : Ctrl) (t0 : Telemetry)
    (ts : List Telemetry) (v : Vehicle) (lvl : ℚ)
    (hsim : c.simulationMode = false) (hst : c.status = DroneStatus.FLYING)
    (hv : c.vehicle = some v)
    (hm1 : t0.mode ≠ VMode.land) (hm2 : t0.mode ≠ VMode.rtl)
    (hb : t0.batteryLevel = some lvl) (hcrit : lvl < c.criticalBatteryLevel) :
    countRTL (runMonitor c (t0 :: ts)).2 = 1 := by
  obtain ⟨h1, h2, h3⟩ := monitorTick_first_critical c t0 v lvl hsim hst hv hm1 hm2 hb hcrit
  have hrest := runMonitor_not_flying (monitorTick c t0).1 ts h3 (by rw [h1]; simp)
  simp only [runMonitor, countRTL, List.countP_append] at h2 hrest ⊢
  omega

/-- Witness for C5 at a concrete input: the flying controller with two
consecutive critically-low battery readings issues exactly one RTL. -/
theorem c5_battery_critical_single_rtl_witness :
    countRTL (runMonitor ctrlFly [telemCritical, telemCritical]).2 = 1 :=
  c5_battery_critical_single_rtl ctrlFly telemCritical [telemCritical] ⟨10⟩ 10
    rfl rfl rfl (by simp [telemCritical]) (by simp [telemCritical]) rfl
    (by norm_num [ctrlFly])

/-- C8: the monitor loop catches every tick exception — each iteration
outcome is handled by continuing after a sleep (5 seconds for an exception,
1 second for a completed tick), the loop schedule handles every iteration of
the trace, and an exception outcome is followed by the remaining
iterations rather than by propagation. -/
theorem c8_monitor_tick_errors_never_propagate :
    (∀ o : TickOutcome, ∃ s, handleTickOutcome o = LoopStep.continueAfter s) ∧
    (∀ msg, handleTickOutcome (TickOutcome.exn msg) = LoopStep.continueAfter 5) ∧
    (∀ outcomes : List TickOutcome,
      (monitorLoopSchedule outcomes).length = outcomes.length) ∧
    (∀ msg rest, monitorLoopSchedule (TickOutcome.exn msg :: rest) =
      LoopStep.continueAfter 5 :: monitorLoopSchedule rest) := by
  refine ⟨?_, fun _ => rfl, ?_, fun _ _ => rfl⟩
  · intro o
    cases o with
    | ok cmds => exact ⟨1, rfl⟩
    | exn msg => exact ⟨5, rfl⟩
  · intro outcomes
    simp [monitorLoopSchedule]

/-- C9: with no lock in the command path, the scheduler may interleave the
monitor thread and the control-loop thread so that both of their vehicle
commands are in flight at once — the interleaved trace is a legal merge of
the two thread traces and reaches two simultaneous in-flight commands,
violating the at-most-one-in-flight serialization the claim requires. -/
theorem c9_commands_not_serialized :
    Interleaving monitorIssuerActions controlIssuerActions
      [.beginCmd, .beginCmd, .endCmd, .endCmd] ∧
    maxInFlight [.beginCmd, .beginCmd, .endCmd, .endCmd] 0 = 2 := by
  constructor
  · exact .left (.right (.left (.right .nil)))
  · rfl

/-- C10: with no boundaries configured, `is_point_inside` is false for every
point and altitude, `get_nearest_safe_point` relates the input exactly to
itself (the fallback return), and the returned corrective point therefore
itself fails containment. -/
theorem c10_empty_boundaries (g : Geofence) (lat lon : ℚ) (alt : Option ℚ)
    (res : ℚ × ℚ) (h : g.boundaries = []) :
    is_point_inside g lat lon alt = false ∧
    (GetNearestSafePoint g lat lon res ↔ res = (lat, lon)) ∧
    (GetNearestSafePoint g lat lon res → is_point_inside g res.1 res.2 none = false) := by
  have hins : ∀ (la lo : ℚ) (al : Option ℚ), is_point_inside g la lo al = false := by
    intro la lo al
    cases al <;> simp [is_point_inside, h]
  refine ⟨hins lat lon alt, ⟨?_, ?_⟩, fun _ => hins res.1 res.2 none⟩
  · intro hg
    cases hg with
    | inside hany => simp [h] at hany
    | corrected i hi q d hany hnear hfirst hmin => simp [h] at hi
    | noBoundaries _ => rfl
  · rintro rfl
    exact GetNearestSafePoint.noBoundaries h

/-- Witness for C10 at a concrete input: the empty geofence reports (1,2)
outside and relates it to itself under `get_nearest_safe_point`. -/
theorem c10_empty_boundaries_witness :
    is_point_inside gmEmpty 1 2 none = false ∧ GetNearestSafePoint gmEmpty 1 2 (1, 2) := by
  have h := c10_empty_boundaries gmEmpty 1 2 none (1, 2) rfl
  exact ⟨h.1, h.2.1.mpr rfl⟩

end DroneSurveillance
